import Mathlib

/-!
Verification of the request-scoped dependency lifecycle described by the
repository (src/main.py): a FastAPI application with one path operation
`read_item` depending on one yield-dependency `get_username`, plus two
documented variants of `get_username` (a suppressing one and an
exception-replacing one) kept in the module docstrings of the same file.

The exceptions, the handler and the dependency release behaviours are
translated from src/main.py.  The Lifecycle Executor itself (acquire in
chain order, run handler, release in reverse order with exception routing)
is framework code that is not part of this repository, so it is modelled
from the spec (section 4.2) where marked.
-/

namespace DepYield

/-- The exception values occurring in src/main.py: `InternalException`
(lines 123-124), FastAPI's `HTTPException` with a status code and a detail
string, and `OwnerException` from the docstring variant (lines 90-91).
A bare `raise` re-raises the same exception value unchanged. -/
inductive Exc where
  | internalException (message : String)
  | httpException (statusCode : Nat) (detail : String)
  | ownerException (message : String)
  deriving DecidableEq, Repr

/-- What a release step (the code after `yield`) does when resumed:
return normally, or raise (re-raise the pending exception or a new one). -/
inductive ReleaseResult where
  | ok
  | raised (e : Exc)
  deriving DecidableEq, Repr

/-- Modelled from the spec: a ScopedDependency has an acquire procedure
(which may consume earlier yielded values) producing a value, and a release
procedure that optionally receives the pending propagated exception. -/
structure ScopedDependency (V : Type) where
  acquire : List V → Except Exc V
  release : Option Exc → ReleaseResult

/-- Trace events of one request: which dependency was acquired (with its
yielded value), the handler invocation (with the yielded values it was
given), and each release step (with the pending exception it observed). -/
inductive Event (V : Type) where
  | acquired (i : Nat) (value : V)
  | handlerRan (values : List V)
  | released (i : Nat) (observed : Option Exc)
  deriving DecidableEq, Repr

/-- Modelled from the spec: the tagged result of running the chain,
one of Success(value), Suppressed, Unhandled(exception). -/
inductive ScopeOutcome (R : Type) where
  | success (value : R)
  | suppressed
  | unhandled (e : Exc)
  deriving DecidableEq, Repr

/-- Modelled from the spec: acquire phase, executing each dependency's
acquire procedure in chain order.  Returns the yielded values acquired so
far, the trace, and the acquisition exception if some acquire failed
(in which case later dependencies are never acquired). -/
def acquirePhase {V : Type} (i : Nat) (vals : List V) :
    List (ScopedDependency V) → List V × List (Event V) × Option Exc
  | [] => (vals, [], none)
  | d :: rest =>
    match d.acquire vals with
    | .ok v =>
      let r := acquirePhase (i + 1) (vals ++ [v]) rest
      (r.1, .acquired i v :: r.2.1, r.2.2)
    | .error e => (vals, [], some e)

/-- Modelled from the spec: release phase over the dependencies in unwind
order (reverse chain order, each paired with its chain index).  Each release
is called with the current pending exception; if it returns normally the
pending exception is cleared, if it raises, what it raised becomes the new
pending exception for the earlier dependencies.  Single pass, strictly
backward. -/
def releasePhase {V : Type} (pending : Option Exc) :
    List (Nat × ScopedDependency V) → Option Exc × List (Event V)
  | [] => (pending, [])
  | (i, d) :: rest =>
    let next : Option Exc :=
      match d.release pending with
      | .ok => none
      | .raised e => some e
    let r := releasePhase next rest
    (r.1, .released i pending :: r.2)

/-- Modelled from the spec: the Lifecycle Executor.  Acquire in chain
order; if an acquisition fails, release the already-acquired prefix in
reverse order with that exception pending and the handler never runs.
Otherwise run the handler with all yielded values, then release everything
in reverse order (with the handler's exception pending if it raised).
Final outcome: Unhandled if a pending exception remains, else Success with
the handler's value, else Suppressed when a raised exception was cleared
during release. -/
def runChain {V R : Type} (deps : List (ScopedDependency V))
    (handler : List V → Except Exc R) : ScopeOutcome R × List (Event V) :=
  let a := acquirePhase 0 [] deps
  match a.2.2 with
  | some e =>
    let r := releasePhase (some e) ((deps.take a.1.length).enum.reverse)
    (match r.1 with
     | some e2 => .unhandled e2
     | none => .suppressed,
     a.2.1 ++ r.2)
  | none =>
    match handler a.1 with
    | .ok v =>
      let r := releasePhase (V := V) none (deps.enum.reverse)
      (match r.1 with
       | some e2 => .unhandled e2
       | none => .success v,
       a.2.1 ++ [.handlerRan a.1] ++ r.2)
    | .error e =>
      let r := releasePhase (some e) (deps.enum.reverse)
      (match r.1 with
       | some e2 => .unhandled e2
       | none => .suppressed,
       a.2.1 ++ [.handlerRan a.1] ++ r.2)

/-- Modelled from the spec: the Outcome Translator's response shapes — a
normal response, an error response derived from a carried status/detail,
or a generic server-fault response. -/
inductive Response (R : Type) where
  | normal (value : R)
  | errorResponse (statusCode : Nat) (detail : String)
  | serverFault
  deriving DecidableEq, Repr

/-- Modelled from the spec: the Outcome Translator.  Success maps to a
normal response; Unhandled to an error response built from the exception's
status/detail when it carries one (HTTPException) and to a generic server
fault otherwise; Suppressed is a failure with no diagnostic payload, hence
a generic server fault (the docstring at src/main.py line 150 says the
client sees an HTTP 500 in that case), never a normal response. -/
def translate {R : Type} : ScopeOutcome R → Response R
  | .success v => .normal v
  | .unhandled (.httpException c d) => .errorResponse c d
  | .unhandled _ => .serverFault
  | .suppressed => .serverFault

/-- src/main.py lines 155-157: the acquire part of `get_username` — the
code before `yield` cannot fail and the yielded value is "Rick". -/
def get_username_acquire : Except Exc String := Except.ok "Rick"

/-- src/main.py lines 156-160: the release part of `get_username` — if an
`InternalException` propagates into the teardown it is caught, a message is
printed, and the bare `raise` re-raises the very same exception; any other
exception is not caught and propagates unchanged; with no pending exception
the generator just finishes. -/
def get_username_release : Option Exc → ReleaseResult
  | none => .ok
  | some (.internalException m) => .raised (.internalException m)
  | some e => .raised e

/-- `get_username` (src/main.py lines 155-160) as a scoped dependency. -/
def get_username_dep : ScopedDependency String :=
  { acquire := fun _ => get_username_acquire, release := get_username_release }

/-- src/main.py lines 163-175: the handler `read_item`.  For
id = "portal-gun" it raises `InternalException`; for any other id that is
not "plumbus" it raises an `HTTPException` with status 404; for "plumbus"
it returns the id itself. -/
def read_item (id username : String) : Except Exc String :=
  if id = "portal-gun" then
    .error (.internalException
      ("The portal gun is too dangerous to be owned by " ++ username))
  else if id ≠ "plumbus" then
    .error (.httpException 404 "Item not found, there's only a plumbus here")
  else
    .ok id

/-- `read_item` as a handler over the chain's yielded values: its
`username` parameter is the value injected by `Depends(get_username)`,
i.e. the (single) yielded value of the chain. -/
def read_item_handler (id : String) (values : List String) :
    Except Exc String :=
  read_item id (values.headD "")

/-- One request to GET /items/{id} of the live application
(src/main.py lines 153-175): the chain is the single dependency
`get_username`, the handler is `read_item`. -/
def handleItemsRequest (id : String) :
    ScopeOutcome String × List (Event String) :=
  runChain [get_username_dep] (read_item_handler id)

/-- src/main.py lines 127-131 (docstring variant): the release part of the
`get_username` that catches `InternalException` and does NOT raise again,
so the caught exception is swallowed; other exceptions are not caught. -/
def get_username_suppress_release : Option Exc → ReleaseResult
  | none => .ok
  | some (.internalException _) => .ok
  | some e => .raised e

/-- The suppressing `get_username` variant as a scoped dependency. -/
def get_username_suppress_dep : ScopedDependency String :=
  { acquire := fun _ => get_username_acquire
    release := get_username_suppress_release }

/-- One request to the docstring application of src/main.py lines 126-147:
same handler `read_item`, but with the suppressing dependency. -/
def handleItemsRequestSuppress (id : String) :
    ScopeOutcome String × List (Event String) :=
  runChain [get_username_suppress_dep] (read_item_handler id)

/-- src/main.py lines 79-88 (docstring variant): the in-memory data store,
mapping an item id to its description and owner. -/
structure Item where
  description : String
  owner : String
  deriving DecidableEq, Repr

/-- src/main.py lines 79-88: the `data` dictionary. -/
def data (id : String) : Option Item :=
  if id = "plumbus" then some ⟨"Freshly pickled plumbus", "Morty"⟩
  else if id = "portal-gun" then some ⟨"Gun to create portals", "Rick"⟩
  else none

/-- src/main.py lines 93-100 (docstring variant): the release part of the
`get_username` that catches `OwnerException` and raises a NEW
`HTTPException` with status 400 and detail "Owner error: {exception}"
(the f-string renders the exception's message); other exceptions are not
caught. -/
def get_username_v1_release : Option Exc → ReleaseResult
  | none => .ok
  | some (.ownerException m) => .raised (.httpException 400 ("Owner error: " ++ m))
  | some e => .raised e

/-- The OwnerException-translating `get_username` variant as a scoped
dependency (its acquire also yields "Rick"). -/
def get_username_v1_dep : ScopedDependency String :=
  { acquire := fun _ => get_username_acquire
    release := get_username_v1_release }

/-- src/main.py lines 103-114 (docstring variant): the handler that looks
the id up in `data`, raises `HTTPException` 401 when absent, raises
`OwnerException(username)` when the item's owner differs from the injected
username, and returns the item otherwise. -/
def read_item_v1 (id username : String) : Except Exc Item :=
  match data id with
  | none => .error (.httpException 401 "Item not found")
  | some item =>
    if item.owner ≠ username then .error (.ownerException username)
    else .ok item

/-- One request to the docstring application of src/main.py lines 78-115. -/
def handleItemsRequestV1 (id : String) :
    ScopeOutcome Item × List (Event String) :=
  runChain [get_username_v1_dep] (fun vs => read_item_v1 id (vs.headD ""))

/-- An incoming request.  The route `@app.get("/items/{id}")` declares only
the path parameter `id`; everything else a transport request carries
(headers, body) is never consulted by `read_item` or `get_username`. -/
structure Request where
  id : String
  headers : List (String × String)
  body : String

/-- Handling a full request: the pipeline extracts the path parameter `id`
and runs the chain; no other part of the request reaches the handler or
the dependency, and no mutable state is touched. -/
def handleRequest (req : Request) :
    ScopeOutcome String × List (Event String) :=
  handleItemsRequest req.id

/-- A release procedure that catches nothing: with no pending exception it
returns normally, and a pending exception propagates through unchanged
(the language's default re-raise on unwind). -/
def passThroughRelease : Option Exc → ReleaseResult
  | none => .ok
  | some e => .raised e

/-- The pending propagated exception produced by a handler result: none
after a normal return, the raised exception otherwise. -/
def pendingOf {R : Type} : Except Exc R → Option Exc
  | .ok _ => none
  | .error e => some e

/-- Recognizer for release events in a trace. -/
def isReleaseEvent {V : Type} : Event V → Bool
  | .released _ _ => true
  | _ => false

/-- The live `get_username` teardown propagates every pending exception
unchanged: `InternalException` is caught and re-raised by the bare
`raise`, anything else is not caught. -/
theorem get_username_release_some (e : Exc) :
    get_username_release (some e) = ReleaseResult.raised e := by
  cases e <;> rfl

/-- With no pending exception the live `get_username` teardown finishes
normally. -/
theorem get_username_release_none :
    get_username_release none = ReleaseResult.ok := rfl

/-- Full evaluation of one request to the live application, for an
arbitrary id: acquisition always succeeds with "Rick", the handler runs on
["Rick"], the single release observes exactly the handler's pending
exception, and the outcome is Success on a normal return and Unhandled
with the same exception otherwise (the release re-raises unchanged). -/
theorem handleItemsRequest_eval (id : String) :
    handleItemsRequest id
      = (match read_item id "Rick" with
         | .ok v => ScopeOutcome.success v
         | .error e => ScopeOutcome.unhandled e,
         [Event.acquired 0 "Rick", Event.handlerRan ["Rick"],
          Event.released 0 (pendingOf (read_item id "Rick"))]) := by
  rcases h : read_item id "Rick" with e | v <;>
    simp [handleItemsRequest, runChain, acquirePhase, releasePhase,
      read_item_handler, get_username_dep, get_username_acquire,
      get_username_release_some, get_username_release_none, pendingOf, h,
      List.enum]

/-- Dependency A of the generic two-element chain used by the spec's
concrete scenarios: its acquire yields "a" and its release catches
nothing. -/
def depA : ScopedDependency String :=
  { acquire := fun _ => Except.ok "a", release := passThroughRelease }

/-- Dependency B of the two-element chain, with the suppressing teardown
of the docstring variant: it catches `InternalException` without raising
again. -/
def depB : ScopedDependency String :=
  { acquire := fun _ => Except.ok "b"
    release := get_username_suppress_release }

/-- The handler failure `E1` of the spec's concrete scenarios. -/
def e1Exc : Exc := Exc.internalException "E1"

/-- Running the chain [A, B] with a handler that fails with `E1`, where
B's release suppresses the exception. -/
def runABSuppress : ScopeOutcome String × List (Event String) :=
  runChain [depA, depB] (fun _ => Except.error e1Exc)

/-- A dependency whose acquire step fails. -/
def depFail : ScopedDependency String :=
  { acquire := fun _ => Except.error (Exc.internalException "acquire failed")
    release := passThroughRelease }

/-- Running the chain [A, failing acquire] with a handler that would
return "never". -/
def runAcqFail : ScopeOutcome String × List (Event String) :=
  runChain [depA, depFail] (fun _ => Except.ok "never")

/-- C1: for id = "portal-gun" the handler raises
`InternalException "The portal gun is too dangerous to be owned by Rick"`,
the teardown of `get_username` observes exactly that exception and its bare
`raise` re-raises it unchanged, and the final outcome is Unhandled carrying
that very exception value. -/
theorem c1_portal_gun_unhandled_original :
    read_item "portal-gun" "Rick"
      = Except.error (Exc.internalException
          "The portal gun is too dangerous to be owned by Rick")
    ∧ handleItemsRequest "portal-gun"
      = (ScopeOutcome.unhandled (Exc.internalException
           "The portal gun is too dangerous to be owned by Rick"),
         [Event.acquired 0 "Rick", Event.handlerRan ["Rick"],
          Event.released 0 (some (Exc.internalException
            "The portal gun is too dangerous to be owned by Rick"))]) := by
  exact ⟨rfl, rfl⟩

/-- C2: for every id other than "plumbus" and "portal-gun" the handler
raises HTTPException 404 "Item not found, there's only a plumbus here";
the teardown catches only InternalException, so the exception passes
through the release phase and reaches the Outcome Translator with its
status and detail intact. -/
theorem c2_not_found_passes_through (id : String)
    (h1 : id ≠ "plumbus") (h2 : id ≠ "portal-gun") :
    read_item id "Rick"
      = Except.error (Exc.httpException 404
          "Item not found, there's only a plumbus here")
    ∧ (handleItemsRequest id).1
      = ScopeOutcome.unhandled (Exc.httpException 404
          "Item not found, there's only a plumbus here")
    ∧ translate (handleItemsRequest id).1
      = Response.errorResponse 404
          "Item not found, there's only a plumbus here" := by
  have hr : read_item id "Rick"
      = Except.error (Exc.httpException 404
          "Item not found, there's only a plumbus here") := by
    simp [read_item, h1, h2]
  refine ⟨hr, ?_, ?_⟩ <;> rw [handleItemsRequest_eval] <;> simp [hr, translate]

/-- Witness for C2 at the concrete id "socks". -/
theorem c2_witness :
    read_item "socks" "Rick"
      = Except.error (Exc.httpException 404
          "Item not found, there's only a plumbus here")
    ∧ (handleItemsRequest "socks").1
      = ScopeOutcome.unhandled (Exc.httpException 404
          "Item not found, there's only a plumbus here")
    ∧ translate (handleItemsRequest "socks").1
      = Response.errorResponse 404
          "Item not found, there's only a plumbus here" :=
  c2_not_found_passes_through "socks" (by decide) (by decide)

/-- C3: for id = "plumbus" nothing fails: the trace is exactly one
acquisition of `get_username` (yielding "Rick"), then the handler run,
then one release observing no exception — so acquisition precedes the
handler, release follows it, each runs exactly once — and the outcome is
Success carrying the handler's return value "plumbus". -/
theorem c3_plumbus_success :
    handleItemsRequest "plumbus"
      = (ScopeOutcome.success "plumbus",
         [Event.acquired 0 "Rick", Event.handlerRan ["Rick"],
          Event.released 0 none]) := by
  exact rfl

/-- C4: for every id, the release step of `get_username` runs exactly once
per request, whether the handler returns (plumbus), raises
InternalException (portal-gun) or raises HTTPException (any other id). -/
theorem c4_release_exactly_once (id : String) :
    ((handleItemsRequest id).2.filter isReleaseEvent).length = 1 := by
  rw [handleItemsRequest_eval]
  simp [isReleaseEvent]

/-- Witness for C4 at the concrete id "portal-gun". -/
theorem c4_witness :
    ((handleItemsRequest "portal-gun").2.filter isReleaseEvent).length
      = 1 :=
  c4_release_exactly_once "portal-gun"

/-- C5: for every id, acquisition of `get_username` succeeds and yields
"Rick", and the handler is invoked with exactly the yielded values
["Rick"], so that applying it is applying `read_item` with
username = "Rick". -/
theorem c5_username_is_rick (id : String) :
    get_username_acquire = Except.ok "Rick"
    ∧ read_item_handler id ["Rick"] = read_item id "Rick"
    ∧ Event.acquired 0 "Rick" ∈ (handleItemsRequest id).2
    ∧ Event.handlerRan ["Rick"] ∈ (handleItemsRequest id).2 := by
  refine ⟨rfl, rfl, ?_, ?_⟩ <;> rw [handleItemsRequest_eval] <;> simp

/-- Witness for C5 at the concrete id "plumbus". -/
theorem c5_witness :
    get_username_acquire = Except.ok "Rick"
    ∧ read_item_handler "plumbus" ["Rick"] = read_item "plumbus" "Rick"
    ∧ Event.acquired 0 "Rick" ∈ (handleItemsRequest "plumbus").2
    ∧ Event.handlerRan ["Rick"] ∈ (handleItemsRequest "plumbus").2 :=
  c5_username_is_rick "plumbus"

/-- C6: with the suppressing teardown of the docstring variant, a request
for "portal-gun" (handler fails with InternalException) ends in the
Suppressed outcome, which the Outcome Translator surfaces as a server
fault and never as a normal (success) response; and in the two-dependency
chain [A, B] where B's release catches the handler failure `E1` without
re-raising, A's release — earlier in the unwind order means later in the
chain order has already run — observes no pending exception. -/
theorem c6_suppressed_surfaces_as_failure :
    (handleItemsRequestSuppress "portal-gun").1 = ScopeOutcome.suppressed
    ∧ translate (handleItemsRequestSuppress "portal-gun").1
      = Response.serverFault
    ∧ (∀ v : String,
        translate (ScopeOutcome.suppressed : ScopeOutcome String)
          ≠ Response.normal v)
    ∧ runABSuppress
      = (ScopeOutcome.suppressed,
         [Event.acquired 0 "a", Event.acquired 1 "b",
          Event.handlerRan ["a", "b"],
          Event.released 1 (some e1Exc), Event.released 0 none]) := by
  refine ⟨rfl, rfl, ?_, rfl⟩
  intro v
  simp [translate]

/-- C7: in the docstring variant where the teardown catches
`OwnerException` and raises a new HTTPException with status 400, a request
for "plumbus" (owner "Morty" ≠ username "Rick") makes the handler raise
`OwnerException "Rick"` (E1); the release observes E1, replaces it with
the new exception E2 = HTTPException 400 "Owner error: Rick", and the
outcome is Unhandled(E2): the translator emits the 400 response with E2's
detail and the client never sees E1. -/
theorem c7_release_replaces_exception :
    read_item_v1 "plumbus" "Rick"
      = Except.error (Exc.ownerException "Rick")
    ∧ handleItemsRequestV1 "plumbus"
      = (ScopeOutcome.unhandled (Exc.httpException 400 "Owner error: Rick"),
         [Event.acquired 0 "Rick", Event.handlerRan ["Rick"],
          Event.released 0 (some (Exc.ownerException "Rick"))])
    ∧ translate (handleItemsRequestV1 "plumbus").1
      = Response.errorResponse 400 "Owner error: Rick" := by
  exact ⟨rfl, rfl, rfl⟩

/-- C8: if an acquisition fails (chain [A, failing]), the handler is never
invoked, the already-acquired dependency A is released receiving the
acquisition exception, and the outcome is Unhandled; in the live program
`get_username`'s acquire cannot fail, so for every id acquisition succeeds
and the handler runs. -/
theorem c8_acquire_failure_skips_handler (id : String) :
    get_username_acquire = Except.ok "Rick"
    ∧ Event.handlerRan ["Rick"] ∈ (handleItemsRequest id).2
    ∧ runAcqFail
      = (ScopeOutcome.unhandled (Exc.internalException "acquire failed"),
         [Event.acquired 0 "a",
          Event.released 0 (some (Exc.internalException "acquire failed"))])
    ∧ (∀ vs : List String, Event.handlerRan vs ∉ runAcqFail.2) := by
  refine ⟨rfl, ?_, rfl, ?_⟩
  · rw [handleItemsRequest_eval]; simp
  · intro vs
    have h : runAcqFail.2
        = [Event.acquired 0 "a",
           Event.released 0 (some (Exc.internalException "acquire failed"))] :=
      rfl
    rw [h]; simp

/-- Witness for C8 at the concrete id "plumbus". -/
theorem c8_witness :
    get_username_acquire = Except.ok "Rick"
    ∧ Event.handlerRan ["Rick"] ∈ (handleItemsRequest "plumbus").2
    ∧ runAcqFail
      = (ScopeOutcome.unhandled (Exc.internalException "acquire failed"),
         [Event.acquired 0 "a",
          Event.released 0 (some (Exc.internalException "acquire failed"))])
    ∧ (∀ vs : List String, Event.handlerRan vs ∉ runAcqFail.2) :=
  c8_acquire_failure_skips_handler "plumbus"

/-- C9: `read_item` returns normally exactly for id = "plumbus", and what
it returns is the path parameter id itself (the string "plumbus"), for any
injected username. -/
theorem c9_returns_id_only_plumbus (id u v : String) :
    read_item id u = Except.ok v ↔ (id = "plumbus" ∧ v = "plumbus") := by
  unfold read_item
  by_cases h2 : id = "plumbus"
  · subst h2
    simp [eq_comm]
  · by_cases h1 : id = "portal-gun" <;> simp [h1, h2]

/-- Witness for C9 at id = "plumbus", username = "Rick". -/
theorem c9_witness :
    read_item "plumbus" "Rick" = Except.ok "plumbus"
      ↔ ("plumbus" = "plumbus" ∧ "plumbus" = "plumbus") :=
  c9_returns_id_only_plumbus "plumbus" "Rick" "plumbus"

/-- C10: the outcome (and the whole trace) of a request is a function of
the path parameter id alone: two requests with the same id but different
headers or bodies produce identical results, since neither the handler nor
the dependency consults anything else or any mutable state. -/
theorem c10_outcome_determined_by_id (r1 r2 : Request)
    (h : r1.id = r2.id) : handleRequest r1 = handleRequest r2 := by
  unfold handleRequest
  rw [h]

/-- Witness for C10: two concrete requests with id "plumbus" but different
headers and bodies. -/
theorem c10_witness :
    handleRequest { id := "plumbus", headers := [("x-user", "alice")],
                    body := "b1" }
      = handleRequest { id := "plumbus", headers := [], body := "b2" } :=
  c10_outcome_determined_by_id _ _ rfl

end DepYield
